import Mathlib

/-!
Verification of the wot-live-win-rate overlay (`src/main.js`, two variants
sharing all logic except the wire protocol).

The JavaScript is embedded shallowly:

* `JSVal` models the JSON values that flow through the handlers
  (`undefined`, `null`, booleans, integers, strings, arrays, objects).
  The numeric fields used by the program (`bonusType`, `winnerTeam`,
  `team`, `id`) are integers, so `num` carries an `Int`; `NaN`/floats are
  never compared in the source.
* Property access `a.k` is `JSVal.getProp`. In JavaScript an access on
  `undefined`/`null` throws a `TypeError`; in this embedding it yields
  `undefined`. Every access in the source is either guarded by `&&`
  short-circuiting (the getters) so the throwing case is unreachable, or,
  when it would throw (a malformed frame), the thrown error aborts that
  single handler invocation leaving the counters and flag untouched —
  exactly the state the embedding produces, so the state semantics agree.
* `a && b` is `jsAnd` (value-returning, as in JS).
* `===` is `jsEq`; for two arrays/objects JS compares references, and the
  operands compared in this program are always distinct references (JSON
  trees share nothing), so `jsEq` returns `false` there.
* The mutable globals `victoryCount`, `lossCount`, `showDisconnectedHint`
  become an explicit `AppState` threaded through the handlers; the
  observable side effects (calls of `render`, websocket sends, and
  `console.error` logs) are collected in `Effects`.
* The IEEE division in `render` only ever divides `victoryCount` by
  `lossCount + victoryCount`; the denominator is zero exactly when the
  numerator is, so the only non-finite result is `NaN` (0/0), modelled as
  `none` in `Option ℚ`.
-/

/-- A JSON-ish JavaScript value, as consumed by the handlers. -/
inductive JSVal where
  | undefined : JSVal
  | null : JSVal
  | bool : Bool → JSVal
  | num : Int → JSVal
  | str : String → JSVal
  | arr : List JSVal → JSVal
  | obj : List (String × JSVal) → JSVal

/-- JavaScript truthiness. (`NaN` is falsy but is not representable here;
no falsy float other than `0` reaches a truthiness test in the source.) -/
def JSVal.truthy : JSVal → Bool
  | .undefined => false
  | .null => false
  | .bool b => b
  | .num n => n != 0
  | .str s => s != ""
  | .arr _ => true
  | .obj _ => true

/-- Property access `v.k`. A missing key on an object gives `undefined`;
access on a non-object gives `undefined` (for `undefined`/`null` JS would
throw — see the header comment for why the state semantics still agree). -/
def JSVal.getProp : JSVal → String → JSVal
  | .obj fs, k =>
    match fs.find? (fun p => p.1 == k) with
    | some p => p.2
    | none => .undefined
  | _, _ => .undefined

/-- Is the value a JS array? (`Array.isArray`). -/
def JSVal.isArr : JSVal → Bool
  | .arr _ => true
  | _ => false

/-- The value-returning conjunction `a && b` of JavaScript. -/
def jsAnd (a b : JSVal) : JSVal :=
  if a.truthy then b else a

/-- Strict equality `===`. `undefined === undefined` is `true`;
`undefined === null` is `false`; arrays/objects compare by reference and
the operands compared in this program are always distinct references, so
the result is `false` there. -/
def jsEq : JSVal → JSVal → Bool
  | .undefined, .undefined => true
  | .null, .null => true
  | .bool a, .bool b => a == b
  | .num a, .num b => a == b
  | .str a, .str b => a == b
  | _, _ => false

/-- `const RANDOM_BATTLE = 1`. -/
def RANDOM_BATTLE : Int := 1

/-- `const GRAND_BATTLE = 24`. -/
def GRAND_BATTLE : Int := 24

/-- `getBattleType`: `battleResult && battleResult.common && battleResult.common.bonusType`. -/
def getBattleType (battleResult : JSVal) : JSVal :=
  jsAnd (jsAnd battleResult (battleResult.getProp "common"))
    ((battleResult.getProp "common").getProp "bonusType")

/-- `isRandomBattle`: the battle type is `RANDOM_BATTLE` or `GRAND_BATTLE`. -/
def isRandomBattle (battleResult : JSVal) : Bool :=
  jsEq (getBattleType battleResult) (.num RANDOM_BATTLE)
    || jsEq (getBattleType battleResult) (.num GRAND_BATTLE)

/-- `getWinnerTeam`: `battleResult && battleResult.common && battleResult.common.winnerTeam`. -/
def getWinnerTeam (battleResult : JSVal) : JSVal :=
  jsAnd (jsAnd battleResult (battleResult.getProp "common"))
    ((battleResult.getProp "common").getProp "winnerTeam")

/-- `getTeam`:
`battleResult && battleResult.personal && battleResult.personal.avatar && battleResult.personal.avatar.team`. -/
def getTeam (battleResult : JSVal) : JSVal :=
  jsAnd
    (jsAnd (jsAnd battleResult (battleResult.getProp "personal"))
      ((battleResult.getProp "personal").getProp "avatar"))
    (((battleResult.getProp "personal").getProp "avatar").getProp "team")

/-- `isVictory`: `getTeam(battleResult) === getWinnerTeam(battleResult)`. -/
def isVictory (battleResult : JSVal) : Bool :=
  jsEq (getTeam battleResult) (getWinnerTeam battleResult)

/-- The mutable page state: the two counters and the disconnected-hint flag. -/
structure AppState where
  victoryCount : Nat
  lossCount : Nat
  showDisconnectedHint : Bool
deriving DecidableEq, Repr

/-- The state at startup: both counters `0`, flag `false`. -/
def initState : AppState := ⟨0, 0, false⟩

/-- JS division of the two counters, as an exact rational; `none` models the
non-finite result. In this program the denominator is zero exactly when the
numerator is, so `none` always stands for `NaN` (0/0). -/
def jsDiv (a b : Nat) : Option ℚ :=
  if b = 0 then none else some ((a : ℚ) / (b : ℚ))

/-- One invocation of the render step: the arguments handed to the external
`renderTitle`/`renderContent`/`renderFavicon` collaborators. -/
structure RenderCall where
  winRate : Option ℚ
  disconnected : Bool
deriving DecidableEq, Repr

/-- `render`: `winRate = victoryCount / (lossCount + victoryCount)`, passed
with the disconnected flag to the external renderers. -/
def render (s : AppState) : RenderCall :=
  ⟨jsDiv s.victoryCount (s.lossCount + s.victoryCount), s.showDisconnectedHint⟩

/-- The observable side effects of a handler invocation: render calls,
outbound websocket frames (the value passed to `JSON.stringify`), and
`console.error` logs, each in program order. -/
structure Effects where
  renders : List RenderCall
  sends : List JSVal
  errorLogs : List JSVal

def Effects.empty : Effects := ⟨[], [], []⟩

/-- Sequential composition of effects. -/
def Effects.append (a b : Effects) : Effects :=
  ⟨a.renders ++ b.renders, a.sends ++ b.sends, a.errorLogs ++ b.errorLogs⟩

instance : Append Effects := ⟨Effects.append⟩

/-- `onBattleResult`: skip out-of-scope results, otherwise bump exactly one
counter and render. -/
def onBattleResult (battleResult : JSVal) (s : AppState) : AppState × Effects :=
  if !isRandomBattle battleResult then (s, Effects.empty)
  else
    let s' :=
      if isVictory battleResult
      then { s with victoryCount := s.victoryCount + 1 }
      else { s with lossCount := s.lossCount + 1 }
    (s', ⟨[render s'], [], []⟩)

/-- Fold `onBattleResult` over a list of battle results, collecting effects
in order (the `for...of` loop over `result.battleResults`). -/
def processResults : List JSVal → AppState → AppState × Effects
  | [], s => (s, Effects.empty)
  | br :: rest, s =>
    let p := onBattleResult br s
    let q := processResults rest p.1
    (q.1, p.2 ++ q.2)

/-- The elements iterated by `for...of` when the value is an array. On a
non-array JS throws before processing any element, leaving the state as the
`[]` case does. -/
def jsElems : JSVal → List JSVal
  | .arr xs => xs
  | _ => []

/-- `onJsonRpcMessage` (Variant A): classify one JSON-RPC message —
subscription notification, then `get_battle_results` reply, then error,
else ignore. -/
def onJsonRpcMessage (m : JSVal) (s : AppState) : AppState × Effects :=
  if jsEq (m.getProp "method") (.str "subscription") then
    onBattleResult ((m.getProp "params").getProp "battleResult") s
  else if (m.getProp "result").truthy && jsEq (m.getProp "id") (.num 1) then
    processResults (jsElems ((m.getProp "result").getProp "battleResults")) s
  else if (m.getProp "error").truthy then
    (s, ⟨[], [], [m.getProp "error"]⟩)
  else (s, Effects.empty)

/-- Fold `onJsonRpcMessage` over the messages of a batch, in order. -/
def processMessages : List JSVal → AppState → AppState × Effects
  | [], s => (s, Effects.empty)
  | m :: rest, s =>
    let p := onJsonRpcMessage m s
    let q := processMessages rest p.1
    (q.1, p.2 ++ q.2)

/-- `onMessage` (Variant A): an array is a batch, anything else a single
message. The frame is the already-`JSON.parse`d value. -/
def onMessageA (d : JSVal) (s : AppState) : AppState × Effects :=
  match d with
  | .arr ms => processMessages ms s
  | m => onJsonRpcMessage m s

/-- `onMessage` (Variant B): tagged-envelope protocol. -/
def onMessageB (m : JSVal) (s : AppState) : AppState × Effects :=
  if jsEq (m.getProp "messageType") (.str "BATTLE_RESULT") then
    onBattleResult ((m.getProp "payload").getProp "result") s
  else if jsEq (m.getProp "messageType") (.str "ERROR") then
    (s, ⟨[], [], [m.getProp "payload"]⟩)
  else (s, Effects.empty)

/-- The single frame sent by Variant A's `onOpen`: a JSON array of the two
JSON-RPC 2.0 requests. -/
def handshakeA : JSVal :=
  .arr
    [ .obj [("jsonrpc", .str "2.0"), ("method", .str "get_battle_results"), ("id", .num 1)],
      .obj [("jsonrpc", .str "2.0"), ("method", .str "subscribe"), ("id", .num 2)] ]

/-- The first frame sent by Variant B's `onOpen`. -/
def replayMsg : JSVal := .obj [("messageType", .str "REPLAY"), ("payload", .obj [])]

/-- The second frame sent by Variant B's `onOpen`. -/
def subscribeMsg : JSVal := .obj [("messageType", .str "SUBSCRIBE"), ("payload", .obj [])]

/-- `onOpen` (Variant A): send the batched handshake, touch nothing else. -/
def onOpenA (s : AppState) : AppState × Effects := (s, ⟨[], [handshakeA], []⟩)

/-- `onOpen` (Variant B): send `REPLAY` then `SUBSCRIBE`. -/
def onOpenB (s : AppState) : AppState × Effects := (s, ⟨[], [replayMsg, subscribeMsg], []⟩)

/-- `onDisconnect` (both close and error events): set the hint, render. -/
def onDisconnect (s : AppState) : AppState × Effects :=
  let s' := { s with showDisconnectedHint := true }
  (s', ⟨[render s'], [], []⟩)

/-- A websocket lifecycle event as dispatched to the four registered
listeners. -/
inductive Event where
  | sockOpen : Event
  | message : JSVal → Event
  | close : Event
  | sockError : Event

/-- Is the event the `open` event? (Used to state that only `open` ever
produces outbound traffic.) -/
def Event.isOpen : Event → Bool
  | .sockOpen => true
  | _ => false

/-- Dispatch one event in Variant A. -/
def stepA (s : AppState) : Event → AppState × Effects
  | .sockOpen => onOpenA s
  | .message d => onMessageA d s
  | .close => onDisconnect s
  | .sockError => onDisconnect s

/-- Dispatch one event in Variant B. -/
def stepB (s : AppState) : Event → AppState × Effects
  | .sockOpen => onOpenB s
  | .message d => onMessageB d s
  | .close => onDisconnect s
  | .sockError => onDisconnect s

/-- Run Variant A over a sequence of events, concatenating effects. -/
def runA (s : AppState) : List Event → AppState × Effects
  | [] => (s, Effects.empty)
  | e :: es =>
    let p := stepA s e
    let q := runA p.1 es
    (q.1, p.2 ++ q.2)

/-- Run Variant B over a sequence of events, concatenating effects. -/
def runB (s : AppState) : List Event → AppState × Effects
  | [] => (s, Effects.empty)
  | e :: es =>
    let p := stepB s e
    let q := runB p.1 es
    (q.1, p.2 ++ q.2)

/-- The top-level init sequence: `render()` runs once, before the
`WebSocket` is constructed and any listener can fire. -/
def bootA : AppState × Effects := (initState, ⟨[render initState], [], []⟩)

/-- A whole Variant A page lifetime: init, then the socket events. -/
def fullRunA (es : List Event) : AppState × Effects :=
  (runA bootA.1 es |>.1, bootA.2 ++ (runA bootA.1 es).2)

/-- Modelled from the spec's classification of the Variant A decoder
(§4.2): the battle results one message contributes, used to state that the
code processes exactly these, in arrival order. -/
def specExtract (m : JSVal) : List JSVal :=
  if jsEq (m.getProp "method") (.str "subscription") then
    [(m.getProp "params").getProp "battleResult"]
  else if (m.getProp "result").truthy && jsEq (m.getProp "id") (.num 1) then
    jsElems ((m.getProp "result").getProp "battleResults")
  else []

/-- Modelled from the spec (§4.2): the battle results one inbound frame
contributes — an array is a batch, anything else a one-element batch. -/
def specExtractFrame (d : JSVal) : List JSVal :=
  match d with
  | .arr ms => (ms.map specExtract).flatten
  | m => specExtract m

/-- A battle result whose team fields are both absent: `common.bonusType`
is `1` (in scope) but there is no `personal` subtree and no
`common.winnerTeam`. -/
def brBothAbsent : JSVal := .obj [("common", .obj [("bonusType", .num 1)])]

/-- The won random battle of the spec's scenario 6 (§8). -/
def sampleVictory : JSVal :=
  .obj [("common", .obj [("bonusType", .num 1), ("winnerTeam", .num 1)]),
        ("personal", .obj [("avatar", .obj [("team", .num 1)])])]

/-- A Variant A `subscription` notification carrying `sampleVictory`. -/
def sampleNotif : JSVal :=
  .obj [("method", .str "subscription"),
        ("params", .obj [("battleResult", sampleVictory)])]

/-- A Variant A JSON-RPC error object. -/
def sampleErr : JSVal := .obj [("error", .str "boom")]

/-- A Variant B `ERROR` frame. -/
def sampleErrB : JSVal :=
  .obj [("messageType", .str "ERROR"), ("payload", .str "boom")]

/-- A `subscription` notification that also carries an `error` field. -/
def sampleNotifWithErr : JSVal :=
  .obj [("method", .str "subscription"),
        ("params", .obj [("battleResult", .obj [])]),
        ("error", .str "x")]

/-- A `get_battle_results` reply (`result` present, `id === 1`) that also
carries an `error` field. -/
def sampleReplyWithErr : JSVal :=
  .obj [("result", .obj [("battleResults", .arr [])]),
        ("id", .num 1),
        ("error", .str "x")]

/-!  ## Helper lemmas  -/

lemma Effects.append_def (a b : Effects) : a ++ b = Effects.append a b := rfl

@[simp] lemma Effects.append_renders (a b : Effects) :
    (a ++ b).renders = a.renders ++ b.renders := rfl

@[simp] lemma Effects.append_sends (a b : Effects) :
    (a ++ b).sends = a.sends ++ b.sends := rfl

@[simp] lemma Effects.append_logs (a b : Effects) :
    (a ++ b).errorLogs = a.errorLogs ++ b.errorLogs := rfl

@[simp] lemma Effects.empty_renders : (Effects.empty).renders = [] := rfl

@[simp] lemma Effects.empty_sends : (Effects.empty).sends = [] := rfl

@[simp] lemma Effects.empty_logs : (Effects.empty).errorLogs = [] := rfl

lemma Effects.append_empty (a : Effects) : a ++ Effects.empty = a := by
  cases a
  simp [Effects.append_def, Effects.append, Effects.empty]

/-- A `===` comparison against a string literal pins down the value. -/
lemma jsEq_str (x : JSVal) (t : String) (h : jsEq x (.str t) = true) :
    x = .str t := by
  cases x <;> simp_all [jsEq]

/-- `onBattleResult` never decreases either counter. -/
lemma onBattleResult_mono (br : JSVal) (s : AppState) :
    s.victoryCount ≤ (onBattleResult br s).1.victoryCount ∧
    s.lossCount ≤ (onBattleResult br s).1.lossCount := by
  unfold onBattleResult
  cases h : isRandomBattle br <;> cases hv : isVictory br <;> simp [h, hv]

/-- `processResults` never decreases either counter. -/
lemma processResults_mono (l : List JSVal) (s : AppState) :
    s.victoryCount ≤ (processResults l s).1.victoryCount ∧
    s.lossCount ≤ (processResults l s).1.lossCount := by
  induction l generalizing s with
  | nil => simp [processResults]
  | cons br rest ih =>
    obtain ⟨h1, h2⟩ := onBattleResult_mono br s
    obtain ⟨h3, h4⟩ := ih (onBattleResult br s).1
    exact ⟨le_trans h1 h3, le_trans h2 h4⟩

/-- `onJsonRpcMessage` never decreases either counter. -/
lemma onJsonRpcMessage_mono (m : JSVal) (s : AppState) :
    s.victoryCount ≤ (onJsonRpcMessage m s).1.victoryCount ∧
    s.lossCount ≤ (onJsonRpcMessage m s).1.lossCount := by
  unfold onJsonRpcMessage
  split
  · exact onBattleResult_mono _ _
  · split
    · exact processResults_mono _ _
    · split <;> simp

/-- `processMessages` never decreases either counter. -/
lemma processMessages_mono (l : List JSVal) (s : AppState) :
    s.victoryCount ≤ (processMessages l s).1.victoryCount ∧
    s.lossCount ≤ (processMessages l s).1.lossCount := by
  induction l generalizing s with
  | nil => simp [processMessages]
  | cons m rest ih =>
    obtain ⟨h1, h2⟩ := onJsonRpcMessage_mono m s
    obtain ⟨h3, h4⟩ := ih (onJsonRpcMessage m s).1
    exact ⟨le_trans h1 h3, le_trans h2 h4⟩

/-- `onMessage` (Variant A) never decreases either counter. -/
lemma onMessageA_mono (d : JSVal) (s : AppState) :
    s.victoryCount ≤ (onMessageA d s).1.victoryCount ∧
    s.lossCount ≤ (onMessageA d s).1.lossCount := by
  cases d <;>
    first
      | exact processMessages_mono _ _
      | exact onJsonRpcMessage_mono _ _

/-- `onMessage` (Variant B) never decreases either counter. -/
lemma onMessageB_mono (m : JSVal) (s : AppState) :
    s.victoryCount ≤ (onMessageB m s).1.victoryCount ∧
    s.lossCount ≤ (onMessageB m s).1.lossCount := by
  unfold onMessageB
  split
  · exact onBattleResult_mono _ _
  · split <;> simp

/-- No Variant A event handler decreases a counter. -/
lemma stepA_mono (s : AppState) (e : Event) :
    s.victoryCount ≤ (stepA s e).1.victoryCount ∧
    s.lossCount ≤ (stepA s e).1.lossCount := by
  cases e with
  | message d => exact onMessageA_mono d s
  | sockOpen => simp [stepA, onOpenA]
  | close => simp [stepA, onDisconnect]
  | sockError => simp [stepA, onDisconnect]

/-- No Variant B event handler decreases a counter. -/
lemma stepB_mono (s : AppState) (e : Event) :
    s.victoryCount ≤ (stepB s e).1.victoryCount ∧
    s.lossCount ≤ (stepB s e).1.lossCount := by
  cases e with
  | message d => exact onMessageB_mono d s
  | sockOpen => simp [stepB, onOpenB]
  | close => simp [stepB, onDisconnect]
  | sockError => simp [stepB, onDisconnect]

/-- `onBattleResult` keeps the disconnected flag, and every render it emits
carries that flag. -/
lemma onBattleResult_hint (br : JSVal) (s : AppState) :
    (onBattleResult br s).1.showDisconnectedHint = s.showDisconnectedHint ∧
    ∀ rc ∈ (onBattleResult br s).2.renders,
      rc.disconnected = s.showDisconnectedHint := by
  unfold onBattleResult
  cases h : isRandomBattle br <;> cases hv : isVictory br <;> simp [h, hv, render]

/-- `processResults` keeps the disconnected flag, and every render it emits
carries that flag. -/
lemma processResults_hint (l : List JSVal) (s : AppState) :
    (processResults l s).1.showDisconnectedHint = s.showDisconnectedHint ∧
    ∀ rc ∈ (processResults l s).2.renders,
      rc.disconnected = s.showDisconnectedHint := by
  induction l generalizing s with
  | nil => simp [processResults]
  | cons br rest ih =>
    obtain ⟨h1, h2⟩ := onBattleResult_hint br s
    obtain ⟨h3, h4⟩ := ih (onBattleResult br s).1
    refine ⟨h1 ▸ h3, ?_⟩
    show ∀ rc ∈ ((onBattleResult br s).2 ++
        (processResults rest (onBattleResult br s).1).2).renders, _
    simp only [Effects.append_renders, List.mem_append]
    rintro rc (hr | hr)
    · exact h2 rc hr
    · exact h1 ▸ h4 rc hr

/-- `onJsonRpcMessage` keeps the disconnected flag, and every render it
emits carries that flag. -/
lemma onJsonRpcMessage_hint (m : JSVal) (s : AppState) :
    (onJsonRpcMessage m s).1.showDisconnectedHint = s.showDisconnectedHint ∧
    ∀ rc ∈ (onJsonRpcMessage m s).2.renders,
      rc.disconnected = s.showDisconnectedHint := by
  unfold onJsonRpcMessage
  split
  · exact onBattleResult_hint _ _
  · split
    · exact processResults_hint _ _
    · split <;> simp

/-- `processMessages` keeps the disconnected flag, and every render it
emits carries that flag. -/
lemma processMessages_hint (l : List JSVal) (s : AppState) :
    (processMessages l s).1.showDisconnectedHint = s.showDisconnectedHint ∧
    ∀ rc ∈ (processMessages l s).2.renders,
      rc.disconnected = s.showDisconnectedHint := by
  induction l generalizing s with
  | nil => simp [processMessages]
  | cons m rest ih =>
    obtain ⟨h1, h2⟩ := onJsonRpcMessage_hint m s
    obtain ⟨h3, h4⟩ := ih (onJsonRpcMessage m s).1
    refine ⟨h1 ▸ h3, ?_⟩
    show ∀ rc ∈ ((onJsonRpcMessage m s).2 ++
        (processMessages rest (onJsonRpcMessage m s).1).2).renders, _
    simp only [Effects.append_renders, List.mem_append]
    rintro rc (hr | hr)
    · exact h2 rc hr
    · exact h1 ▸ h4 rc hr

/-- `onMessage` (Variant A) keeps the disconnected flag, and every render
it emits carries that flag. -/
lemma onMessageA_hint (d : JSVal) (s : AppState) :
    (onMessageA d s).1.showDisconnectedHint = s.showDisconnectedHint ∧
    ∀ rc ∈ (onMessageA d s).2.renders,
      rc.disconnected = s.showDisconnectedHint := by
  cases d <;>
    first
      | exact processMessages_hint _ _
      | exact onJsonRpcMessage_hint _ _

/-- Once the disconnected flag is set, any further Variant A event keeps it
set and renders only with `disconnected = true`. -/
lemma stepA_hint_true (s : AppState) (e : Event)
    (h : s.showDisconnectedHint = true) :
    (stepA s e).1.showDisconnectedHint = true ∧
    ∀ rc ∈ (stepA s e).2.renders, rc.disconnected = true := by
  cases e with
  | message d =>
    obtain ⟨h1, h2⟩ := onMessageA_hint d s
    exact ⟨h ▸ h1, fun rc hr => h ▸ h2 rc hr⟩
  | sockOpen => simp [stepA, onOpenA, h]
  | close => simp [stepA, onDisconnect, render]
  | sockError => simp [stepA, onDisconnect, render]

/-- Once the disconnected flag is set, it stays set for a whole run of
Variant A events and every subsequent render carries `disconnected = true`. -/
lemma runA_hint_true (es : List Event) (s : AppState)
    (h : s.showDisconnectedHint = true) :
    (runA s es).1.showDisconnectedHint = true ∧
    ∀ rc ∈ (runA s es).2.renders, rc.disconnected = true := by
  induction es generalizing s with
  | nil => simpa [runA] using h
  | cons e rest ih =>
    obtain ⟨h1, h2⟩ := stepA_hint_true s e h
    obtain ⟨h3, h4⟩ := ih (stepA s e).1 h1
    refine ⟨h3, ?_⟩
    show ∀ rc ∈ ((stepA s e).2 ++ (runA (stepA s e).1 rest).2).renders, _
    simp only [Effects.append_renders, List.mem_append]
    rintro rc (hr | hr)
    · exact h2 rc hr
    · exact h4 rc hr

/-- The state reached by `processResults` is the left fold of
`onBattleResult` over the list. -/
lemma processResults_fst (l : List JSVal) (s : AppState) :
    (processResults l s).1 =
      l.foldl (fun t br => (onBattleResult br t).1) s := by
  induction l generalizing s with
  | nil => rfl
  | cons br rest ih => simpa [processResults] using ih (onBattleResult br s).1

/-- The state reached by `onJsonRpcMessage` is the left fold of
`onBattleResult` over the battle results the spec says the message
contributes. -/
lemma onJsonRpcMessage_fst (m : JSVal) (s : AppState) :
    (onJsonRpcMessage m s).1 =
      (specExtract m).foldl (fun t br => (onBattleResult br t).1) s := by
  unfold onJsonRpcMessage specExtract
  cases h1 : jsEq (m.getProp "method") (JSVal.str "subscription") <;>
    simp only [h1, Bool.false_eq_true, if_false, if_true, List.foldl_cons,
      List.foldl_nil]
  · cases h2 : (m.getProp "result").truthy && jsEq (m.getProp "id") (JSVal.num 1) <;>
      simp only [h2, Bool.false_eq_true, if_false, if_true]
    · cases h3 : (m.getProp "error").truthy <;>
        simp [h3]
    · exact processResults_fst _ _

/-- The state reached by `processMessages` is the left fold of
`onBattleResult` over the concatenation of the per-message extractions. -/
lemma processMessages_fst (ms : List JSVal) (s : AppState) :
    (processMessages ms s).1 =
      ((ms.map specExtract).flatten).foldl
        (fun t br => (onBattleResult br t).1) s := by
  induction ms generalizing s with
  | nil => rfl
  | cons m rest ih =>
    have : (processMessages (m :: rest) s).1 =
        (processMessages rest (onJsonRpcMessage m s).1).1 := rfl
    rw [this, ih, onJsonRpcMessage_fst]
    simp [List.foldl_append]

/-- The state reached by `onMessage` (Variant A) is the left fold of
`onBattleResult` over the frame's extracted battle results, in arrival
order. -/
lemma onMessageA_fst (d : JSVal) (s : AppState) :
    (onMessageA d s).1 =
      (specExtractFrame d).foldl (fun t br => (onBattleResult br t).1) s := by
  cases d <;>
    first
      | exact processMessages_fst _ _
      | exact onJsonRpcMessage_fst _ _

/-- `onBattleResult` sends nothing. -/
lemma onBattleResult_sends (br : JSVal) (s : AppState) :
    (onBattleResult br s).2.sends = [] := by
  unfold onBattleResult
  cases h : isRandomBattle br <;> simp [h]

/-- `processResults` sends nothing. -/
lemma processResults_sends (l : List JSVal) (s : AppState) :
    (processResults l s).2.sends = [] := by
  induction l generalizing s with
  | nil => rfl
  | cons br rest ih =>
    show ((onBattleResult br s).2 ++ _).sends = []
    simp [onBattleResult_sends, ih]

/-- `onJsonRpcMessage` sends nothing. -/
lemma onJsonRpcMessage_sends (m : JSVal) (s : AppState) :
    (onJsonRpcMessage m s).2.sends = [] := by
  unfold onJsonRpcMessage
  split
  · exact onBattleResult_sends _ _
  · split
    · exact processResults_sends _ _
    · split <;> rfl

/-- `processMessages` sends nothing. -/
lemma processMessages_sends (ms : List JSVal) (s : AppState) :
    (processMessages ms s).2.sends = [] := by
  induction ms generalizing s with
  | nil => rfl
  | cons m rest ih =>
    show ((onJsonRpcMessage m s).2 ++ _).sends = []
    simp [onJsonRpcMessage_sends, ih]

/-- `onMessage` (Variant A) sends nothing. -/
lemma onMessageA_sends (d : JSVal) (s : AppState) :
    (onMessageA d s).2.sends = [] := by
  cases d <;>
    first
      | exact processMessages_sends _ _
      | exact onJsonRpcMessage_sends _ _

/-- `onMessage` (Variant B) sends nothing. -/
lemma onMessageB_sends (m : JSVal) (s : AppState) :
    (onMessageB m s).2.sends = [] := by
  unfold onMessageB
  split
  · exact onBattleResult_sends _ _
  · split <;> rfl

/-- Per event, Variant A sends the handshake frame on `open` and nothing
otherwise. -/
lemma stepA_sends (s : AppState) (e : Event) :
    (stepA s e).2.sends = if e.isOpen then [handshakeA] else [] := by
  cases e with
  | message d => simpa [stepA, Event.isOpen] using onMessageA_sends d s
  | sockOpen => rfl
  | close => rfl
  | sockError => rfl

/-- Per event, Variant B sends the two handshake frames on `open` and
nothing otherwise. -/
lemma stepB_sends (s : AppState) (e : Event) :
    (stepB s e).2.sends = if e.isOpen then [replayMsg, subscribeMsg] else [] := by
  cases e with
  | message d => simpa [stepB, Event.isOpen] using onMessageB_sends d s
  | sockOpen => rfl
  | close => rfl
  | sockError => rfl

/-- Over a whole run, Variant A's outbound traffic is exactly one handshake
frame per `open` event. -/
lemma runA_sends (es : List Event) (s : AppState) :
    (runA s es).2.sends =
      ((es.map fun e => if e.isOpen then [handshakeA] else []).flatten) := by
  induction es generalizing s with
  | nil => rfl
  | cons e rest ih =>
    show ((stepA s e).2 ++ (runA (stepA s e).1 rest).2).sends = _
    simp [stepA_sends, ih]

/-- Over a whole run, Variant B's outbound traffic is exactly the two
handshake frames per `open` event. -/
lemma runB_sends (es : List Event) (s : AppState) :
    (runB s es).2.sends =
      ((es.map fun e => if e.isOpen then [replayMsg, subscribeMsg] else []).flatten) := by
  induction es generalizing s with
  | nil => rfl
  | cons e rest ih =>
    show ((stepB s e).2 ++ (runB (stepB s e).1 rest).2).sends = _
    simp [stepB_sends, ih]

/-- `onBattleResult` never logs. -/
lemma onBattleResult_logs (br : JSVal) (s : AppState) :
    (onBattleResult br s).2.errorLogs = [] := by
  unfold onBattleResult
  cases h : isRandomBattle br <;> simp [h]

/-- `processResults` never logs. -/
lemma processResults_logs (l : List JSVal) (s : AppState) :
    (processResults l s).2.errorLogs = [] := by
  induction l generalizing s with
  | nil => rfl
  | cons br rest ih =>
    show ((onBattleResult br s).2 ++ _).errorLogs = []
    simp [onBattleResult_logs, ih]

/-!  ## Claim theorems  -/

/-- C1 (counterexample): for the in-scope battle result `brBothAbsent`,
whose player-team and winner-team fields are both absent, `isVictory`
returns `true` — JavaScript's `undefined === undefined` — not `false`, and
processing it increments `victoryCount`, leaving `lossCount` untouched.
This refutes the claim that a missing team is never counted as a victory. -/
theorem C1_counterexample :
    isRandomBattle brBothAbsent = true ∧
    getTeam brBothAbsent = JSVal.undefined ∧
    getWinnerTeam brBothAbsent = JSVal.undefined ∧
    ¬ (isVictory brBothAbsent = false ∧
        (onBattleResult brBothAbsent initState).1.lossCount =
          initState.lossCount + 1) ∧
    isVictory brBothAbsent = true ∧
    (onBattleResult brBothAbsent initState).1.victoryCount = 1 ∧
    (onBattleResult brBothAbsent initState).1.lossCount = 0 := by
  refine ⟨by decide, rfl, rfl, ?_, by decide, by decide, by decide⟩
  intro h
  exact absurd h.1 (by decide)

/-- C1 (amended): for every in-scope battle result in which the player's
team field and the winner team field are both absent (both getters yield
`undefined`), `isVictory` returns `true` and processing the result
increments `victoryCount` by exactly 1, leaving `lossCount` unchanged. -/
theorem C1_amended (br : JSVal) (s : AppState)
    (hin : isRandomBattle br = true)
    (ht : getTeam br = JSVal.undefined)
    (hw : getWinnerTeam br = JSVal.undefined) :
    isVictory br = true ∧
    (onBattleResult br s).1.victoryCount = s.victoryCount + 1 ∧
    (onBattleResult br s).1.lossCount = s.lossCount := by
  have hv : isVictory br = true := by
    unfold isVictory
    rw [ht, hw]
    rfl
  refine ⟨hv, ?_, ?_⟩ <;> simp [onBattleResult, hin, hv]

/-- C1 (amended, witness): the amended claim at `brBothAbsent` from the
initial state. -/
theorem C1_amended_witness :
    isRandomBattle brBothAbsent = true ∧
    getTeam brBothAbsent = JSVal.undefined ∧
    getWinnerTeam brBothAbsent = JSVal.undefined ∧
    (isVictory brBothAbsent = true ∧
      (onBattleResult brBothAbsent initState).1.victoryCount =
        initState.victoryCount + 1 ∧
      (onBattleResult brBothAbsent initState).1.lossCount =
        initState.lossCount) :=
  ⟨by decide, rfl, rfl, C1_amended brBothAbsent initState (by decide) rfl rfl⟩

/-- C2: both counters start at 0; an in-scope battle result increments
exactly one of them by exactly 1 and leaves the other unchanged; an
out-of-scope one leaves the state untouched; and no event handler of
either variant ever decreases a counter (counters are `Nat`, hence
non-negative by construction). -/
theorem C2_counters (br : JSVal) (s : AppState) (e : Event) :
    initState.victoryCount = 0 ∧
    initState.lossCount = 0 ∧
    (isRandomBattle br = true →
      ((onBattleResult br s).1.victoryCount = s.victoryCount + 1 ∧
        (onBattleResult br s).1.lossCount = s.lossCount) ∨
      ((onBattleResult br s).1.victoryCount = s.victoryCount ∧
        (onBattleResult br s).1.lossCount = s.lossCount + 1)) ∧
    (isRandomBattle br = false → (onBattleResult br s).1 = s) ∧
    (s.victoryCount ≤ (stepA s e).1.victoryCount ∧
      s.lossCount ≤ (stepA s e).1.lossCount) ∧
    (s.victoryCount ≤ (stepB s e).1.victoryCount ∧
      s.lossCount ≤ (stepB s e).1.lossCount) := by
  refine ⟨rfl, rfl, ?_, ?_, stepA_mono s e, stepB_mono s e⟩
  · intro h
    cases hv : isVictory br
    · right
      constructor <;> simp [onBattleResult, h, hv]
    · left
      constructor <;> simp [onBattleResult, h, hv]
  · intro h
    simp [onBattleResult, h]

/-- C2 (witness): the in-scope and out-of-scope branches at concrete
inputs, via `C2_counters`. -/
theorem C2_counters_witness :
    isRandomBattle sampleVictory = true ∧
    (((onBattleResult sampleVictory initState).1.victoryCount =
        initState.victoryCount + 1 ∧
      (onBattleResult sampleVictory initState).1.lossCount =
        initState.lossCount) ∨
     ((onBattleResult sampleVictory initState).1.victoryCount =
        initState.victoryCount ∧
      (onBattleResult sampleVictory initState).1.lossCount =
        initState.lossCount + 1)) ∧
    isRandomBattle (JSVal.str "junk") = false ∧
    (onBattleResult (JSVal.str "junk") initState).1 = initState :=
  ⟨by decide,
   (C2_counters sampleVictory initState Event.close).2.2.1 (by decide),
   by decide,
   (C2_counters (JSVal.str "junk") initState Event.close).2.2.2.1 (by decide)⟩

/-- C3: for every in-scope battle result whose player team and winner team
are both present and equal (the same integer team id), processing it
increments `victoryCount` by exactly 1 and leaves `lossCount` unchanged. -/
theorem C3_victory (br : JSVal) (s : AppState) (t : Int)
    (hin : isRandomBattle br = true)
    (ht : getTeam br = JSVal.num t)
    (hw : getWinnerTeam br = JSVal.num t) :
    (onBattleResult br s).1.victoryCount = s.victoryCount + 1 ∧
    (onBattleResult br s).1.lossCount = s.lossCount := by
  have hv : isVictory br = true := by
    unfold isVictory
    rw [ht, hw]
    simp [jsEq]
  constructor <;> simp [onBattleResult, hin, hv]

/-- C3 (witness): the spec's scenario 6 input — a won random battle — from
the initial state, via `C3_victory`. -/
theorem C3_victory_witness :
    isRandomBattle sampleVictory = true ∧
    getTeam sampleVictory = JSVal.num 1 ∧
    getWinnerTeam sampleVictory = JSVal.num 1 ∧
    ((onBattleResult sampleVictory initState).1.victoryCount =
      initState.victoryCount + 1 ∧
     (onBattleResult sampleVictory initState).1.lossCount =
      initState.lossCount) :=
  ⟨by decide, rfl, rfl, C3_victory sampleVictory initState 1 (by decide) rfl rfl⟩

/-- C4: the disconnected flag starts `false`; after any close or error
event it is `true` and stays `true` under every subsequent event, and every
render call issued from the close/error event onwards carries
`disconnected = true`. -/
theorem C4_disconnected (es1 es2 : List Event) (e : Event)
    (he : e = Event.close ∨ e = Event.sockError) :
    initState.showDisconnectedHint = false ∧
    (runA (runA initState es1).1 (e :: es2)).1.showDisconnectedHint = true ∧
    ∀ rc ∈ (runA (runA initState es1).1 (e :: es2)).2.renders,
      rc.disconnected = true := by
  set s0 := (runA initState es1).1 with hs0
  have hstep : stepA s0 e = onDisconnect s0 := by
    rcases he with h | h <;> rw [h] <;> rfl
  have hhint : (stepA s0 e).1.showDisconnectedHint = true := by
    rw [hstep]; rfl
  have hrend : ∀ rc ∈ (stepA s0 e).2.renders, rc.disconnected = true := by
    rw [hstep]
    simp [onDisconnect, render]
  obtain ⟨h3, h4⟩ := runA_hint_true es2 (stepA s0 e).1 hhint
  refine ⟨rfl, h3, ?_⟩
  show ∀ rc ∈ ((stepA s0 e).2 ++ (runA (stepA s0 e).1 es2).2).renders, _
  simp only [Effects.append_renders, List.mem_append]
  rintro rc (hr | hr)
  · exact hrend rc hr
  · exact h4 rc hr

/-- C4 (witness): a single close event from startup, via
`C4_disconnected`. -/
theorem C4_disconnected_witness :
    (Event.close = Event.close ∨ Event.close = Event.sockError) ∧
    (initState.showDisconnectedHint = false ∧
     (runA (runA initState []).1 [Event.close]).1.showDisconnectedHint = true ∧
     ∀ rc ∈ (runA (runA initState []).1 [Event.close]).2.renders,
       rc.disconnected = true) :=
  ⟨Or.inl rfl, C4_disconnected [] [] Event.close (Or.inl rfl)⟩

/-- C5: a message that reaches the error branch — Variant A: no
`subscription` method, not a `get_battle_results` reply, `error` truthy;
Variant B: `messageType === 'ERROR'` — leaves the state (both counters and
the disconnected flag) unchanged, renders nothing, sends nothing, and only
logs the error payload. -/
theorem C5_server_error (m mB : JSVal) (s : AppState)
    (h1 : jsEq (m.getProp "method") (JSVal.str "subscription") = false)
    (h2 : ((m.getProp "result").truthy &&
            jsEq (m.getProp "id") (JSVal.num 1)) = false)
    (h3 : (m.getProp "error").truthy = true)
    (hB : jsEq (mB.getProp "messageType") (JSVal.str "ERROR") = true) :
    onJsonRpcMessage m s = (s, ⟨[], [], [m.getProp "error"]⟩) ∧
    onMessageB mB s = (s, ⟨[], [], [mB.getProp "payload"]⟩) := by
  constructor
  · simp [onJsonRpcMessage, h1, h2, h3]
  · have hmt : mB.getProp "messageType" = JSVal.str "ERROR" := jsEq_str _ _ hB
    have hbr : jsEq (mB.getProp "messageType") (JSVal.str "BATTLE_RESULT") = false := by
      rw [hmt]; rfl
    simp [onMessageB, hbr, hB]

/-- C5 (witness): a Variant A error object and a Variant B `ERROR` frame on
the initial state, via `C5_server_error`. -/
theorem C5_server_error_witness :
    jsEq (sampleErr.getProp "method") (JSVal.str "subscription") = false ∧
    ((sampleErr.getProp "result").truthy &&
      jsEq (sampleErr.getProp "id") (JSVal.num 1)) = false ∧
    (sampleErr.getProp "error").truthy = true ∧
    jsEq (sampleErrB.getProp "messageType") (JSVal.str "ERROR") = true ∧
    (onJsonRpcMessage sampleErr initState =
      (initState, ⟨[], [], [sampleErr.getProp "error"]⟩) ∧
     onMessageB sampleErrB initState =
      (initState, ⟨[], [], [sampleErrB.getProp "payload"]⟩)) :=
  ⟨by decide, by decide, by decide, by decide,
   C5_server_error sampleErr sampleErrB initState
     (by decide) (by decide) (by decide) (by decide)⟩

/-- C7: the win rate handed to the renderers is
`victoryCount / (victoryCount + lossCount)` (an exact rational when at
least one game was counted), it is undefined (`NaN`, modelled `none`) when
both counters are zero, and in that zero-games state the render step still
produces a well-defined `RenderCall` (the total function `render` yields
`⟨none, false⟩` on the initial state). -/
theorem C7_win_rate (s : AppState) :
    (render s).winRate = jsDiv s.victoryCount (s.victoryCount + s.lossCount) ∧
    (s.victoryCount = 0 → s.lossCount = 0 → (render s).winRate = none) ∧
    render initState = ⟨none, false⟩ := by
  refine ⟨by simp [render, Nat.add_comm], ?_, rfl⟩
  intro hv hl
  simp [render, hv, hl, jsDiv]

/-- C7 (witness): the zero-games state, via `C7_win_rate`. -/
theorem C7_win_rate_witness :
    initState.victoryCount = 0 ∧ initState.lossCount = 0 ∧
    (render initState).winRate = none :=
  ⟨rfl, rfl, (C7_win_rate initState).2.1 rfl rfl⟩

/-- C9: the init sequence renders exactly once, from the state with both
counters zero and the flag down — so with the undefined (0/0) win rate —
and only then does the event-driven phase contribute further renders. -/
theorem C9_initial_render (es : List Event) :
    bootA.2.renders = [⟨none, false⟩] ∧
    bootA.1 = initState ∧
    initState = ⟨0, 0, false⟩ ∧
    fullRunA es =
      ((runA initState es).1, bootA.2 ++ (runA initState es).2) :=
  ⟨rfl, rfl, rfl, rfl⟩

/-- A non-array frame is handled as a single JSON-RPC message. -/
lemma onMessageA_notArr (m : JSVal) (s : AppState) (hm : m.isArr = false) :
    onMessageA m s = onJsonRpcMessage m s := by
  cases m <;> simp_all [onMessageA, JSVal.isArr]

/-- A one-element batch is the same as handling the message directly. -/
lemma processMessages_one (m : JSVal) (s : AppState) :
    processMessages [m] s = onJsonRpcMessage m s := by
  show ((onJsonRpcMessage m s).1, (onJsonRpcMessage m s).2 ++ Effects.empty)
      = onJsonRpcMessage m s
  rw [Effects.append_empty]

/-- C6: the Variant A decoder treats an array frame as a batch and a
non-array frame as a one-element batch; per object it takes the
`subscription` branch, then the `result`/`id === 1` branch (each element of
`result.battleResults`), then logs `error` objects, and silently ignores
the rest; and the state it reaches is the in-order left fold of
`onBattleResult` over the extracted battle results of the frame. -/
theorem C6_decoder (m : JSVal) (ms : List JSVal) (s : AppState)
    (hm : m.isArr = false) :
    onMessageA (JSVal.arr ms) s = processMessages ms s ∧
    onMessageA m s = processMessages [m] s ∧
    (jsEq (m.getProp "method") (JSVal.str "subscription") = true →
      onJsonRpcMessage m s =
        onBattleResult ((m.getProp "params").getProp "battleResult") s) ∧
    (jsEq (m.getProp "method") (JSVal.str "subscription") = false →
      ((m.getProp "result").truthy &&
        jsEq (m.getProp "id") (JSVal.num 1)) = true →
      onJsonRpcMessage m s =
        processResults (jsElems ((m.getProp "result").getProp "battleResults")) s) ∧
    (jsEq (m.getProp "method") (JSVal.str "subscription") = false →
      ((m.getProp "result").truthy &&
        jsEq (m.getProp "id") (JSVal.num 1)) = false →
      (m.getProp "error").truthy = true →
      onJsonRpcMessage m s = (s, ⟨[], [], [m.getProp "error"]⟩)) ∧
    (jsEq (m.getProp "method") (JSVal.str "subscription") = false →
      ((m.getProp "result").truthy &&
        jsEq (m.getProp "id") (JSVal.num 1)) = false →
      (m.getProp "error").truthy = false →
      onJsonRpcMessage m s = (s, Effects.empty)) ∧
    ((onMessageA (JSVal.arr ms) s).1 =
      (specExtractFrame (JSVal.arr ms)).foldl
        (fun t br => (onBattleResult br t).1) s ∧
     (onMessageA m s).1 =
      (specExtractFrame m).foldl (fun t br => (onBattleResult br t).1) s) := by
  refine ⟨rfl, ?_, ?_, ?_, ?_, ?_, onMessageA_fst _ _, onMessageA_fst _ _⟩
  · rw [onMessageA_notArr m s hm, processMessages_one]
  · intro h
    simp [onJsonRpcMessage, h]
  · intro h1 h2
    simp [onJsonRpcMessage, h1, h2]
  · intro h1 h2 h3
    simp [onJsonRpcMessage, h1, h2, h3]
  · intro h1 h2 h3
    simp [onJsonRpcMessage, h1, h2, h3]

/-- C6 (witness): a concrete `subscription` notification, processed both as
a bare frame and as the order-preserving fold, via `C6_decoder`. -/
theorem C6_decoder_witness :
    sampleNotif.isArr = false ∧
    (onMessageA sampleNotif initState).1 =
      (specExtractFrame sampleNotif).foldl
        (fun t br => (onBattleResult br t).1) initState :=
  ⟨by decide,
   (C6_decoder sampleNotif [sampleNotif] initState (by decide)).2.2.2.2.2.2.2⟩

/-- C8: on `open`, Variant A sends exactly the single batched JSON-RPC 2.0
handshake frame and Variant B exactly the `REPLAY` then `SUBSCRIBE` frames
(neither touches the state); every other event sends nothing; and over any
whole run the outbound traffic is exactly the per-`open` handshake. -/
theorem C8_handshake (s : AppState) (e : Event) (es : List Event) :
    (stepA s Event.sockOpen).2.sends =
      [JSVal.arr
        [JSVal.obj [("jsonrpc", JSVal.str "2.0"),
            ("method", JSVal.str "get_battle_results"), ("id", JSVal.num 1)],
         JSVal.obj [("jsonrpc", JSVal.str "2.0"),
            ("method", JSVal.str "subscribe"), ("id", JSVal.num 2)]]] ∧
    (stepA s Event.sockOpen).1 = s ∧
    (stepB s Event.sockOpen).2.sends =
      [JSVal.obj [("messageType", JSVal.str "REPLAY"), ("payload", JSVal.obj [])],
       JSVal.obj [("messageType", JSVal.str "SUBSCRIBE"), ("payload", JSVal.obj [])]] ∧
    (stepB s Event.sockOpen).1 = s ∧
    (stepA s e).2.sends = (if e.isOpen then [handshakeA] else []) ∧
    (stepB s e).2.sends = (if e.isOpen then [replayMsg, subscribeMsg] else []) ∧
    (runA s es).2.sends =
      ((es.map fun e2 => if e2.isOpen then [handshakeA] else []).flatten) ∧
    (runB s es).2.sends =
      ((es.map fun e2 => if e2.isOpen then [replayMsg, subscribeMsg] else []).flatten) :=
  ⟨rfl, rfl, rfl, rfl, stepA_sends s e, stepB_sends s e,
   runA_sends es s, runB_sends es s⟩

/-- C10: the Variant A branches are tried in priority order — a message
with `method === 'subscription'` that also carries an `error` field is
handled as a notification and never logged; a (non-subscription) message
with `result`, `id === 1` and `error` is handled as a historical reply and
never logged. -/
theorem C10_priority (m1 m2 : JSVal) (s : AppState)
    (h1 : jsEq (m1.getProp "method") (JSVal.str "subscription") = true)
    (he1 : (m1.getProp "error").truthy = true)
    (h2m : jsEq (m2.getProp "method") (JSVal.str "subscription") = false)
    (h2r : ((m2.getProp "result").truthy &&
      jsEq (m2.getProp "id") (JSVal.num 1)) = true)
    (he2 : (m2.getProp "error").truthy = true) :
    onJsonRpcMessage m1 s =
      onBattleResult ((m1.getProp "params").getProp "battleResult") s ∧
    (onJsonRpcMessage m1 s).2.errorLogs = [] ∧
    onJsonRpcMessage m2 s =
      processResults (jsElems ((m2.getProp "result").getProp "battleResults")) s ∧
    (onJsonRpcMessage m2 s).2.errorLogs = [] := by
  have e1 : onJsonRpcMessage m1 s =
      onBattleResult ((m1.getProp "params").getProp "battleResult") s := by
    simp [onJsonRpcMessage, h1]
  have e2 : onJsonRpcMessage m2 s =
      processResults (jsElems ((m2.getProp "result").getProp "battleResults")) s := by
    simp [onJsonRpcMessage, h2m, h2r]
  refine ⟨e1, ?_, e2, ?_⟩
  · rw [e1]
    exact onBattleResult_logs _ _
  · rw [e2]
    exact processResults_logs _ _

/-- C10 (witness): a notification and a historical reply that both carry an
`error` field produce no log, via `C10_priority`. -/
theorem C10_priority_witness :
    jsEq (sampleNotifWithErr.getProp "method") (JSVal.str "subscription") = true ∧
    (sampleNotifWithErr.getProp "error").truthy = true ∧
    jsEq (sampleReplyWithErr.getProp "method") (JSVal.str "subscription") = false ∧
    ((sampleReplyWithErr.getProp "result").truthy &&
      jsEq (sampleReplyWithErr.getProp "id") (JSVal.num 1)) = true ∧
    (sampleReplyWithErr.getProp "error").truthy = true ∧
    (onJsonRpcMessage sampleNotifWithErr initState).2.errorLogs = [] ∧
    (onJsonRpcMessage sampleReplyWithErr initState).2.errorLogs = [] :=
  ⟨by decide, by decide, by decide, by decide, by decide,
   (C10_priority sampleNotifWithErr sampleReplyWithErr initState
      (by decide) (by decide) (by decide) (by decide) (by decide)).2.1,
   (C10_priority sampleNotifWithErr sampleReplyWithErr initState
      (by decide) (by decide) (by decide) (by decide) (by decide)).2.2.2⟩
